import Mathlib

/-!
Verification of the MJPEG camera streamer core (scripts/camera_stream.py):
the FrameGrabber capture loop with its lock-guarded latest-JPEG cache, and
the HTTP handler routes (snapshot and live multipart stream) that read it.

Modelling conventions:
- Byte buffers (Python bytes) are lists of byte values (List Nat).
- Both the publish in FrameGrabber._loop (lines 98-100) and the read in
  FrameGrabber.latest_jpeg (lines 77-79) run entirely under self._lock, so
  each is a single atomic action on the _latest_jpeg slot.  Concurrency is
  modelled by interleaving these atomic actions: a read that is concurrent
  with a sequence of publishes observes the slot after some prefix of the
  publishes.
- External effects (camera reads via cap.read, cv2.imencode outcomes,
  socket write outcomes) are oracle inputs supplied per loop iteration;
  sleeps and writes are recorded as events, with durations in seconds as
  rationals (time.sleep(0.01) becomes a sleep of 1/100).
-/

namespace CameraStream

/-- Byte buffers (Python bytes objects) as lists of byte values. -/
abbrev Bytes := List Nat

/-- ASCII byte encoding of a string, used for the literal header fragments
the handler writes (all of them are plain ASCII). -/
def strBytes (s : String) : Bytes :=
  s.toList.map Char.toNat

/-! ## Latest-frame cache (FrameGrabber._latest_jpeg, _lock) -/

/-- Initial value of the FrameGrabber._latest_jpeg slot (line 63:
`self._latest_jpeg: Optional[bytes] = None`). -/
def initLatest : Option Bytes := none

/-- FrameGrabber.latest_jpeg (lines 77-79): under the lock, return the
current value of the _latest_jpeg slot. -/
def latest_jpeg (latest : Option Bytes) : Option Bytes :=
  latest

/-- The publish step in FrameGrabber._loop (lines 99-100): under the lock,
overwrite the _latest_jpeg slot with the new JPEG bytes. -/
def publishStep (_latest : Option Bytes) (buf : Bytes) : Option Bytes :=
  some buf

/-- Value of the cache slot after a sequence of atomic publishes, starting
from the initial empty slot (each publish overwrites the previous value). -/
def cacheAfter (pubs : List Bytes) : Option Bytes :=
  pubs.foldl publishStep initLatest

/-- Python truthiness of an optional bytes value: None and the empty bytes
object are falsy, any non-empty bytes object is truthy.  This is the test
performed by `if not frame:` in the handler (lines 266 and 287). -/
def pyTruthyBytes : Option Bytes → Bool
  | none => false
  | some b => !b.isEmpty

/-! ## Capture loop (FrameGrabber._loop) -/

/-- Shape information of a raw frame delivered by cap.read: the number of
array dimensions and, for a 3-dimensional array, the channel count
frame.shape[2]. -/
structure RawFrame where
  ndim : Nat
  channels : Nat
deriving DecidableEq, Repr

/-- cv2.cvtColor(frame, cv2.COLOR_RGBA2BGR) (line 92): drops the fourth
channel and reorders, producing a 3-channel image of the same size. -/
def cvtColor_RGBA2BGR (_f : RawFrame) : RawFrame :=
  { ndim := 3, channels := 3 }

/-- The conversion branch of FrameGrabber._loop (lines 90-94): a frame with
ndim = 3 and 4 channels is converted with COLOR_RGBA2BGR, any other frame
is passed through unchanged.  (The `frame is not None` conjunct of the
source condition is vacuous here: on this path the read already returned a
frame.) -/
def convertFrame (f : RawFrame) : RawFrame :=
  if f.ndim = 3 ∧ f.channels = 4 then cvtColor_RGBA2BGR f else f

/-- Oracle inputs consumed by one iteration of FrameGrabber._loop: the stop
flag observed at the top of the loop, the outcome of cap.read, and the
outcome of cv2.imencode for this frame (encodeBuf is buf.tobytes() when the
encode succeeds). -/
structure IterInput where
  stopSet : Bool
  readOk : Bool
  readFrame : Option RawFrame
  encodeOk : Bool
  encodeBuf : Bytes
deriving DecidableEq, Repr

/-- Observable events of one loop iteration: the 10ms failure backoff sleep
(line 88), the call into cv2.imencode with the converted frame (line 95),
the publish into the cache (lines 98-100), and the rate-limit sleep
(lines 101-103). -/
inductive Event where
  | backoffSleep (seconds : ℚ)
  | encodeCall (frame_bgr : RawFrame)
  | publish (buf : Bytes)
  | rateSleep (seconds : ℚ)
deriving DecidableEq, Repr

/-- The read of cap.read failed for this iteration (line 85:
`if not ok or frame is None`). -/
def readFailed (inp : IterInput) : Bool :=
  !inp.readOk || inp.readFrame.isNone

/-- The body of one iteration of FrameGrabber._loop (lines 84-103), given
the configured target interval `ti` and the current cache slot: returns the
new cache slot and the events of this iteration.
On read failure: sleep 0.01s and continue, cache untouched.  Otherwise:
convert, call the encoder; on encode success publish buf.tobytes(); in
either case perform the rate-limit sleep when target_interval > 0. -/
def iterStep (ti : ℚ) (latest : Option Bytes) (inp : IterInput) :
    Option Bytes × List Event :=
  if readFailed inp then
    (latest, [Event.backoffSleep (1 / 100)])
  else
    let frame := inp.readFrame.getD ⟨0, 0⟩
    let frame_bgr := convertFrame frame
    let pubPart : Option Bytes × List Event :=
      if inp.encodeOk then
        (publishStep latest inp.encodeBuf, [Event.publish inp.encodeBuf])
      else
        (latest, [])
    let ratePart : List Event :=
      if 0 < ti then [Event.rateSleep ti] else []
    (pubPart.1, Event.encodeCall frame_bgr :: pubPart.2 ++ ratePart)

/-- Run of FrameGrabber._loop over a finite script of iteration inputs:
returns the final cache slot, the concatenated events, and whether the loop
exited through the `while not self._stop.is_set()` test (line 83).
An exhausted script with no stop observed leaves the loop still running
(the Bool is false). -/
def runLoop (ti : ℚ) (latest : Option Bytes) :
    List IterInput → Option Bytes × List Event × Bool
  | [] => (latest, [], false)
  | inp :: rest =>
    if inp.stopSet then
      (latest, [], true)
    else
      let st := iterStep ti latest inp
      let r := runLoop ti st.1 rest
      (r.1, st.2 ++ r.2.1, r.2.2)

/-- The publishes contained in an event list, in order. -/
def publishes (evs : List Event) : List Bytes :=
  evs.filterMap fun e =>
    match e with
    | Event.publish b => some b
    | _ => none

/-- FrameGrabber.__init__ (line 60): target_interval is 1/target_fps when
target_fps is truthy and positive, otherwise 0.  (In Python, a None or 0.0
target_fps is falsy and short-circuits to the else branch.) -/
def target_interval_of (target_fps : Option ℚ) : ℚ :=
  match target_fps with
  | none => 0
  | some f => if f ≠ 0 ∧ 0 < f then 1 / f else 0

/-! ## HTTP handler (make_http_handler.Handler) -/

/-- Effects the BaseHTTPRequestHandler API performs while serving a
request, as the handler code calls them. -/
inductive HttpEvent where
  | sendResponse (code : Nat)
  | sendHeader (keyword value : String)
  | endHeaders
  | write (data : Bytes)
  | sendError (code : Nat) (message : String)
deriving DecidableEq, Repr

/-- Result of serving GET /snapshot.jpg: the HTTP effects performed, and
how many times grabber.latest_jpeg was called. -/
structure SnapshotResult where
  events : List HttpEvent
  cacheReads : Nat
deriving DecidableEq, Repr

/-- The /snapshot.jpg branch of Handler.do_GET (lines 264-274), given the
cache slot at the moment of its single grabber.latest_jpeg call:
`if not frame:` send_error 503, else 200 / image/jpeg / Content-Length /
body. -/
def snapshotGET (cache : Option Bytes) : SnapshotResult :=
  let frame := latest_jpeg cache
  if pyTruthyBytes frame = false then
    { events := [HttpEvent.sendError 503 "No frame available yet"], cacheReads := 1 }
  else
    let b := frame.getD []
    { events :=
        [ HttpEvent.sendResponse 200,
          HttpEvent.sendHeader "Content-Type" "image/jpeg",
          HttpEvent.sendHeader "Content-Length" (toString b.length),
          HttpEvent.endHeaders,
          HttpEvent.write b ],
      cacheReads := 1 }

/-- The multipart boundary token (line 245: `boundary = b"frame"`). -/
def boundary : Bytes := strBytes "frame"

/-- The successive wfile.write payloads for one frame of the stream loop
(lines 290-294). -/
def streamPartWrites (frame : Bytes) : List Bytes :=
  [ strBytes "--" ++ boundary ++ strBytes "\x0d\x0a",
    strBytes "Content-Type: image/jpeg\x0d\x0a",
    strBytes ("Content-Length: " ++ toString frame.length ++ "\x0d\x0a\x0d\x0a"),
    frame,
    strBytes "\x0d\x0a" ]

/-- The two exception types the stream loop catches (line 295): a write to
a disconnected peer raises BrokenPipeError or ConnectionResetError. -/
inductive Disconnect where
  | brokenPipe
  | connReset
deriving DecidableEq, Repr

/-- Oracle input for one iteration of the /stream.mjpg per-connection loop:
the cache slot observed by its grabber.latest_jpeg call, and whether the
attempt to write this part to the peer raises a disconnect exception. -/
structure StreamInput where
  cache : Option Bytes
  writeFail : Option Disconnect
deriving DecidableEq, Repr

/-- Observable events of the stream loop: the 10ms poll sleep (line 288)
and each payload written to the peer. -/
inductive StreamEvent where
  | sleepPoll (seconds : ℚ)
  | write (data : Bytes)
deriving DecidableEq, Repr

/-- How a run of the per-connection stream loop ended: still iterating
(script exhausted), or returned from the except branch after a peer
disconnect (lines 295-297). -/
inductive StreamTermination where
  | running
  | clientDisconnected (d : Disconnect)
deriving DecidableEq, Repr

/-- The `while True` loop of the /stream.mjpg branch of Handler.do_GET
(lines 283-297) over a finite script of iteration inputs: returns the
stream events, how the loop ended, and the error-log lines emitted
(the except branch only returns, so none are). -/
def streamLoop : List StreamInput → List StreamEvent × StreamTermination × List String
  | [] => ([], StreamTermination.running, [])
  | i :: rest =>
    if pyTruthyBytes i.cache = false then
      let r := streamLoop rest
      (StreamEvent.sleepPoll (1 / 100) :: r.1, r.2.1, r.2.2)
    else
      match i.writeFail with
      | some d => ([], StreamTermination.clientDisconnected d, [])
      | none =>
        let b := i.cache.getD []
        let r := streamLoop rest
        ((streamPartWrites b).map StreamEvent.write ++ r.1, r.2.1, r.2.2)

/-- Handler.log_message (lines 301-304): overridden to emit nothing. -/
def log_message (_fmt : String) (_args : List String) : List String := []

/-! ## Helper lemmas -/

/-- A fold of overwrites that ends in a filled slot got its value from the
list (or it was already there). -/
theorem foldl_publishStep_mem (l : List Bytes) :
    ∀ (a : Option Bytes) (b : Bytes), l.foldl publishStep a = some b → b ∈ l ∨ a = some b := by
  induction l with
  | nil =>
    intro a b h
    right
    exact h
  | cons c rest ih =>
    intro a b h
    simp only [List.foldl_cons] at h
    rcases ih (publishStep a c) b h with h1 | h2
    · exact Or.inl (List.mem_cons_of_mem _ h1)
    · simp only [publishStep, Option.some.injEq] at h2
      exact Or.inl (h2 ▸ List.mem_cons_self c rest)

/-- Running the capture loop over a script that does not stop splits along
an append of scripts. -/
theorem runLoop_append (ti : ℚ) :
    ∀ (s₁ s₂ : List IterInput) (latest : Option Bytes),
      (runLoop ti latest s₁).2.2 = false →
      runLoop ti latest (s₁ ++ s₂) =
        ((runLoop ti (runLoop ti latest s₁).1 s₂).1,
         (runLoop ti latest s₁).2.1 ++ (runLoop ti (runLoop ti latest s₁).1 s₂).2.1,
         (runLoop ti (runLoop ti latest s₁).1 s₂).2.2) := by
  intro s₁
  induction s₁ with
  | nil =>
    intro s₂ latest h
    simp [runLoop]
  | cons i rest ih =>
    intro s₂ latest h
    by_cases hs : i.stopSet = true
    · simp [runLoop, hs] at h
    · simp only [List.cons_append, runLoop, hs, if_false, Bool.false_eq_true] at h ⊢
      simp only [List.append_eq]
      rw [ih s₂ (iterStep ti latest i).1 h]
      simp [List.append_assoc]

/-- A run over failing reads (with the stop flag clear) leaves the cache
untouched, emits one 10ms backoff sleep per iteration, and does not exit
the loop. -/
theorem runLoop_failures (ti : ℚ) :
    ∀ (fails : List IterInput) (latest : Option Bytes),
      (∀ i ∈ fails, i.stopSet = false ∧ readFailed i = true) →
      runLoop ti latest fails =
        (latest, List.replicate fails.length (Event.backoffSleep (1 / 100)), false) := by
  intro fails
  induction fails with
  | nil =>
    intro latest _
    rfl
  | cons i rest ih =>
    intro latest h
    have hi := h i (List.mem_cons_self i rest)
    have hr : ∀ j ∈ rest, j.stopSet = false ∧ readFailed j = true :=
      fun j hj => h j (List.mem_cons_of_mem i hj)
    simp only [runLoop, hi.1, iterStep, hi.2, if_true, Bool.false_eq_true, if_false,
      ih latest hr, List.length_cons, List.replicate_succ]
    rfl

/-- Backoff sleeps contain no publish. -/
theorem publishes_replicate_backoff (K : Nat) (q : ℚ) :
    publishes (List.replicate K (Event.backoffSleep q)) = [] := by
  induction K with
  | zero => rfl
  | succ n ih => simp [publishes, List.replicate_succ, List.filterMap_cons] at ih ⊢

/-! ## Claims -/

/-- C1: for every sequence of publishes P1..Pn to the latest-frame cache, a
read performed concurrently with the publishes returns either None (if it
happens before P1) or exactly one Pi's complete byte buffer, never a
partially written buffer.  Both the publish and the read hold the same
lock, so each is an atomic action on the slot and a concurrent read
observes the slot after some prefix of the publishes; the value it returns
is then None or one of the published buffers in full. -/
theorem C1_read_never_torn (pubs : List Bytes) (k : Nat) :
    latest_jpeg (cacheAfter (pubs.take k)) = none ∨
      ∃ b, b ∈ pubs ∧ latest_jpeg (cacheAfter (pubs.take k)) = some b := by
  cases h : latest_jpeg (cacheAfter (pubs.take k)) with
  | none => exact Or.inl rfl
  | some b =>
    refine Or.inr ⟨b, ?_, rfl⟩
    have h' : (pubs.take k).foldl publishStep initLatest = some b := h
    rcases foldl_publishStep_mem (pubs.take k) initLatest b h' with h1 | h2
    · exact List.mem_of_mem_take h1
    · simp [initLatest] at h2

/-- C8: the latest-frame cache read returns None before the first
successful publish, and repeated reads with no intervening publish (the
second read sees the trace of the first extended by an empty list of
publishes) return identical bytes. -/
theorem C8_read_idempotent :
    latest_jpeg (cacheAfter []) = none ∧
    ∀ (pubs between : List Bytes), between = [] →
      latest_jpeg (cacheAfter (pubs ++ between)) = latest_jpeg (cacheAfter pubs) := by
  refine ⟨rfl, ?_⟩
  intro pubs between h
  subst h
  simp

/-- Witness for C8 at a concrete trace. -/
theorem C8_read_idempotent_witness :
    latest_jpeg (cacheAfter ([[1, 2]] ++ [])) = latest_jpeg (cacheAfter [[1, 2]]) :=
  C8_read_idempotent.2 [[1, 2]] [] rfl

/-- C2 counterexample: a cache holding a zero-length buffer is not empty,
yet the snapshot route answers with the 503 error instead of a 200
response, because the source tests `if not frame:` rather than comparing
against None. -/
theorem C2_counterexample :
    (some ([] : Bytes) ≠ (none : Option Bytes)) ∧
    (snapshotGET (some ([] : Bytes))).events =
      [HttpEvent.sendError 503 "No frame available yet"] :=
  ⟨by simp, rfl⟩

/-- C2 amended: for every GET /snapshot.jpg, if the cache is empty or
holds a zero-length buffer the response is the 503 error; otherwise the
response is 200 with content-type image/jpeg, a Content-Length header
equal to the length of the cached buffer, and a body equal to the cached
bytes; in every case after exactly one cache read. -/
theorem C2_snapshot_amended (cache : Option Bytes) :
    (cache = none ∨ cache = some [] →
      (snapshotGET cache).events = [HttpEvent.sendError 503 "No frame available yet"]) ∧
    (∀ b : Bytes, cache = some b → b ≠ [] →
      (snapshotGET cache).events =
        [ HttpEvent.sendResponse 200,
          HttpEvent.sendHeader "Content-Type" "image/jpeg",
          HttpEvent.sendHeader "Content-Length" (toString b.length),
          HttpEvent.endHeaders,
          HttpEvent.write b ]) ∧
    (snapshotGET cache).cacheReads = 1 := by
  refine ⟨?_, ?_, ?_⟩
  · rintro (rfl | rfl) <;> rfl
  · rintro b rfl hb
    have : (latest_jpeg (some b)).getD [] = b := rfl
    simp [snapshotGET, pyTruthyBytes, latest_jpeg, List.isEmpty_iff, hb]
  · cases cache with
    | none => rfl
    | some b =>
      by_cases hb : b.isEmpty <;> simp [snapshotGET, pyTruthyBytes, latest_jpeg, hb]

/-- Witness for C2 amended at a concrete non-empty buffer. -/
theorem C2_snapshot_amended_witness :
    (snapshotGET (some [7])).events =
      [ HttpEvent.sendResponse 200,
        HttpEvent.sendHeader "Content-Type" "image/jpeg",
        HttpEvent.sendHeader "Content-Length" (toString ([7] : Bytes).length),
        HttpEvent.endHeaders,
        HttpEvent.write [7] ] :=
  (C2_snapshot_amended (some [7])).2.1 [7] rfl (by simp)

/-- C3: for every frame buffer written by a live-stream connection, the
bytes sent to the client for that frame are exactly the concatenation of
the boundary line, the Content-Type line, the Content-Length line with a
blank line, the frame bytes, and a trailing CRLF, in that order. -/
theorem C3_stream_part (frame : Bytes) (rest : List StreamInput)
    (h : frame ≠ []) :
    (streamLoop (⟨some frame, none⟩ :: rest)).1 =
      (streamPartWrites frame).map StreamEvent.write ++ (streamLoop rest).1 ∧
    (streamPartWrites frame).flatten =
      strBytes "--frame\x0d\x0a" ++
      strBytes "Content-Type: image/jpeg\x0d\x0a" ++
      strBytes ("Content-Length: " ++ toString frame.length ++ "\x0d\x0a\x0d\x0a") ++
      frame ++ strBytes "\x0d\x0a" := by
  constructor
  · simp [streamLoop, pyTruthyBytes, List.isEmpty_iff, h]
  · have hb : strBytes "--frame\x0d\x0a" = strBytes "--" ++ (boundary ++ strBytes "\x0d\x0a") := by
      decide
    simp [streamPartWrites, hb, List.append_assoc]

/-- Witness for C3 at a concrete two-byte frame. -/
theorem C3_stream_part_witness :
    (streamLoop [({ cache := some [255, 216], writeFail := none } : StreamInput)]).1 =
      (streamPartWrites [255, 216]).map StreamEvent.write ++ (streamLoop []).1 :=
  (C3_stream_part [255, 216] [] (by simp)).1

/-- C4: for every camera source that fails its first K reads and then
succeeds, with the stop flag never raised, the capture loop does not exit
during the K failures, sleeps a fixed 10ms backoff after each failed read
while leaving the cache untouched (no publish), and publishes exactly once
after the (K+1)th read. -/
theorem C4_backoff_retry (ti : ℚ) (K : Nat) (fails : List IterInput)
    (f : RawFrame) (b : Bytes)
    (hlen : fails.length = K)
    (hfail : ∀ i ∈ fails, i.stopSet = false ∧ readFailed i = true) :
    runLoop ti none fails = (none, List.replicate K (Event.backoffSleep (1 / 100)), false) ∧
    publishes
        (runLoop ti none (fails ++ [⟨false, true, some f, true, b⟩])).2.1 = [b] ∧
    (runLoop ti none (fails ++ [⟨false, true, some f, true, b⟩])).2.2 = false := by
  have hfails := runLoop_failures ti fails none hfail
  have hrun : (runLoop ti none fails).2.2 = false := by rw [hfails]
  have happ := runLoop_append ti fails [⟨false, true, some f, true, b⟩] none hrun
  have hsucc :
      runLoop ti (runLoop ti none fails).1 [⟨false, true, some f, true, b⟩] =
        (some b,
         Event.encodeCall (convertFrame f) :: Event.publish b ::
           (if 0 < ti then [Event.rateSleep ti] else []), false) := by
    rw [hfails]
    by_cases h0 : 0 < ti <;>
      simp [runLoop, iterStep, readFailed, publishStep, h0]
  refine ⟨hlen ▸ hfails, ?_, ?_⟩
  · rw [happ, hsucc]
    simp only [hfails]
    rw [publishes, List.filterMap_append]
    have h1 : publishes (List.replicate fails.length (Event.backoffSleep (1 / 100))) = [] :=
      publishes_replicate_backoff fails.length (1 / 100)
    rw [publishes] at h1
    rw [h1]
    by_cases h0 : 0 < ti <;> simp [publishes, h0, List.filterMap_cons]
  · rw [happ, hsucc]

/-- Witness for C4 with two failed reads followed by one good frame. -/
theorem C4_backoff_retry_witness :
    runLoop 0 none (List.replicate 2 ⟨false, false, none, false, []⟩) =
      (none, List.replicate 2 (Event.backoffSleep (1 / 100)), false) ∧
    publishes
        (runLoop 0 none
          (List.replicate 2 ⟨false, false, none, false, []⟩ ++
            [⟨false, true, some ⟨3, 4⟩, true, [1]⟩])).2.1 = [[1]] ∧
    (runLoop 0 none
        (List.replicate 2 ⟨false, false, none, false, []⟩ ++
          [⟨false, true, some ⟨3, 4⟩, true, [1]⟩])).2.2 = false :=
  C4_backoff_retry 0 2 (List.replicate 2 ⟨false, false, none, false, []⟩) ⟨3, 4⟩ [1]
    (by simp) (by decide)

/-- C5: in every capture iteration where the read succeeds but the JPEG
encode fails, no publish happens, the latest-frame cache is left unchanged,
and the loop continues to the next iteration (it does not exit). -/
theorem C5_encode_failure (ti : ℚ) (latest : Option Bytes) (f : RawFrame)
    (buf : Bytes) (rest : List IterInput) :
    (iterStep ti latest ⟨false, true, some f, false, buf⟩).1 = latest ∧
    publishes (iterStep ti latest ⟨false, true, some f, false, buf⟩).2 = [] ∧
    runLoop ti latest (⟨false, true, some f, false, buf⟩ :: rest) =
      ((runLoop ti latest rest).1,
       (iterStep ti latest ⟨false, true, some f, false, buf⟩).2 ++
         (runLoop ti latest rest).2.1,
       (runLoop ti latest rest).2.2) := by
  refine ⟨?_, ?_, ?_⟩
  · simp [iterStep, readFailed]
  · by_cases h0 : 0 < ti <;> simp [iterStep, readFailed, publishes, h0, List.filterMap_cons]
  · have hcache : (iterStep ti latest ⟨false, true, some f, false, buf⟩).1 = latest := by
      simp [iterStep, readFailed]
    simp only [runLoop, Bool.false_eq_true, if_false, hcache]

/-- C6: the capture loop sleeps for target_interval = 1/target_fps after a
successful iteration when a positive target_fps is configured, and performs
no rate-limit sleep when target_fps is unset or not positive. -/
theorem C6_rate_limit (latest : Option Bytes) (f : RawFrame) (b : Bytes) :
    (∀ F : ℚ, 0 < F →
      target_interval_of (some F) = 1 / F ∧
      (iterStep (target_interval_of (some F)) latest ⟨false, true, some f, true, b⟩).2 =
        [Event.encodeCall (convertFrame f), Event.publish b, Event.rateSleep (1 / F)]) ∧
    (target_interval_of none = 0 ∧
      (iterStep (target_interval_of none) latest ⟨false, true, some f, true, b⟩).2 =
        [Event.encodeCall (convertFrame f), Event.publish b]) ∧
    (∀ F : ℚ, F ≤ 0 →
      target_interval_of (some F) = 0 ∧
      (iterStep (target_interval_of (some F)) latest ⟨false, true, some f, true, b⟩).2 =
        [Event.encodeCall (convertFrame f), Event.publish b]) := by
  refine ⟨?_, ?_, ?_⟩
  · intro F hF
    have hti : target_interval_of (some F) = 1 / F := by
      simp [target_interval_of, ne_of_gt hF, hF]
    refine ⟨hti, ?_⟩
    rw [hti]
    have h0 : 0 < 1 / F := one_div_pos.mpr hF
    simp [iterStep, readFailed, h0, hF]
  · refine ⟨rfl, ?_⟩
    simp [iterStep, readFailed, target_interval_of]
  · intro F hF
    have hti : target_interval_of (some F) = 0 := by
      rcases lt_or_eq_of_le hF with h | h
      · simp [target_interval_of, not_lt_of_gt h]
      · simp [target_interval_of, h]
    refine ⟨hti, ?_⟩
    rw [hti]
    simp [iterStep, readFailed]

/-- Witness for C6 at target_fps values 30, none and -5. -/
theorem C6_rate_limit_witness :
    (target_interval_of (some 30) = 1 / 30 ∧
      (iterStep (target_interval_of (some 30)) none ⟨false, true, some ⟨3, 4⟩, true, [9]⟩).2 =
        [Event.encodeCall (convertFrame ⟨3, 4⟩), Event.publish [9],
          Event.rateSleep (1 / 30)]) ∧
    (target_interval_of none = 0 ∧
      (iterStep (target_interval_of none) none ⟨false, true, some ⟨3, 4⟩, true, [9]⟩).2 =
        [Event.encodeCall (convertFrame ⟨3, 4⟩), Event.publish [9]]) ∧
    (target_interval_of (some (-5)) = 0 ∧
      (iterStep (target_interval_of (some (-5))) none ⟨false, true, some ⟨3, 4⟩, true, [9]⟩).2 =
        [Event.encodeCall (convertFrame ⟨3, 4⟩), Event.publish [9]]) :=
  ⟨(C6_rate_limit none ⟨3, 4⟩ [9]).1 30 (by norm_num),
   (C6_rate_limit none ⟨3, 4⟩ [9]).2.1,
   (C6_rate_limit none ⟨3, 4⟩ [9]).2.2 (-5) (by norm_num)⟩

/-- C7: a raw frame whose pixel layout has a fourth channel is converted to
a 3-channel layout before JPEG compression, a frame already in a 3-channel
layout reaches the encoder unchanged, and in the loop the encoder is always
called on the converted frame. -/
theorem C7_channel_conversion (f : RawFrame) (ti : ℚ) (latest : Option Bytes)
    (enc : Bool) (b : Bytes) :
    (f.ndim = 3 → f.channels = 4 →
      convertFrame f = cvtColor_RGBA2BGR f ∧ (convertFrame f).channels = 3) ∧
    (f.channels = 3 → convertFrame f = f) ∧
    (iterStep ti latest ⟨false, true, some f, enc, b⟩).2.head? =
      some (Event.encodeCall (convertFrame f)) := by
  refine ⟨?_, ?_, ?_⟩
  · intro hn hc
    constructor
    · simp [convertFrame, hn, hc]
    · simp [convertFrame, cvtColor_RGBA2BGR, hn, hc]
  · intro hc
    simp [convertFrame, hc]
  · simp [iterStep, readFailed]

/-- Witness for C7 at a 4-channel and a 3-channel frame. -/
theorem C7_channel_conversion_witness :
    (convertFrame ⟨3, 4⟩ = cvtColor_RGBA2BGR ⟨3, 4⟩ ∧ (convertFrame ⟨3, 4⟩).channels = 3) ∧
    convertFrame ⟨3, 3⟩ = ⟨3, 3⟩ :=
  ⟨(C7_channel_conversion ⟨3, 4⟩ 0 none false []).1 rfl rfl,
   (C7_channel_conversion ⟨3, 3⟩ 0 none false []).2.1 rfl⟩

/-- C9: a live-stream connection loop never terminates except when a write
to the client raises a peer-disconnect exception (broken pipe or connection
reset), and that termination emits no error log (the handler also overrides
log_message to emit nothing). -/
theorem C9_stream_termination (script : List StreamInput) :
    ((∀ i ∈ script, i.writeFail = none) →
      (streamLoop script).2.1 = StreamTermination.running) ∧
    (∀ d, (streamLoop script).2.1 = StreamTermination.clientDisconnected d →
      ∃ i ∈ script, i.writeFail = some d) ∧
    (streamLoop script).2.2 = [] ∧
    (∀ fmt args, log_message fmt args = []) := by
  induction script with
  | nil =>
    refine ⟨fun _ => rfl, ?_, rfl, fun _ _ => rfl⟩
    intro d h
    exact absurd h (by simp [streamLoop])
  | cons i rest ih =>
    refine ⟨?_, ?_, ?_, fun _ _ => rfl⟩
    · intro h
      have hi := h i (List.mem_cons_self i rest)
      have hr := ih.1 fun j hj => h j (List.mem_cons_of_mem i hj)
      by_cases hc : pyTruthyBytes i.cache = false
      · simp [streamLoop, hc, hr]
      · simp [streamLoop, hc, hi, hr]
    · intro d h
      by_cases hc : pyTruthyBytes i.cache = false
      · simp only [streamLoop, hc, if_true] at h
        obtain ⟨j, hj, hjf⟩ := ih.2.1 d h
        exact ⟨j, List.mem_cons_of_mem i hj, hjf⟩
      · cases hwf : i.writeFail with
        | some d' =>
          have hd : d' = d := by simp [streamLoop, hc, hwf] at h; exact h
          exact ⟨i, List.mem_cons_self i rest, by rw [hwf, hd]⟩
        | none =>
          have hrest : (streamLoop rest).2.1 = StreamTermination.clientDisconnected d := by
            simp [streamLoop, hc, hwf] at h
            exact h
          obtain ⟨j, hj, hjf⟩ := ih.2.1 d hrest
          exact ⟨j, List.mem_cons_of_mem i hj, hjf⟩
    · by_cases hc : pyTruthyBytes i.cache = false
      · simp [streamLoop, hc, ih.2.2.1]
      · cases hwf : i.writeFail with
        | some d' => simp [streamLoop, hc, hwf]
        | none => simp [streamLoop, hc, hwf, ih.2.2.1]

/-- Witness for C9: a script with no write failure leaves the loop
running. -/
theorem C9_stream_termination_witness :
    (streamLoop [({ cache := some [1], writeFail := none } : StreamInput)]).2.1 =
      StreamTermination.running :=
  (C9_stream_termination [{ cache := some [1], writeFail := none }]).1 (by decide)

/-- C10: a zero-length published buffer is treated by both routes exactly
as an empty cache: the snapshot route answers 503 and the stream loop
sleeps and retries without writing a part, because both test Python
truthiness of the buffer rather than comparing against None. -/
theorem C10_zero_length_buffer :
    (snapshotGET (some ([] : Bytes))).events = (snapshotGET none).events ∧
    (snapshotGET (some ([] : Bytes))).events =
      [HttpEvent.sendError 503 "No frame available yet"] ∧
    (∀ (w w' : Option Disconnect) (rest : List StreamInput),
      streamLoop (⟨some [], w⟩ :: rest) = streamLoop (⟨none, w'⟩ :: rest)) ∧
    streamLoop [⟨some [], none⟩] =
      ([StreamEvent.sleepPoll (1 / 100)], StreamTermination.running, []) := by
  refine ⟨rfl, rfl, ?_, rfl⟩
  intro w w' rest
  simp [streamLoop, pyTruthyBytes]

end CameraStream
